import Mathlib

/-!
# Rect2i: integer axis-aligned rectangles

A shallow embedding of `variant/Rect2i/rect2i.go`.  The Go fields are `int32`;
here they are `Int`, and every `int32` addition or subtraction of the source is
followed by an explicit two's-complement reduction `wrap32`.  Comparisons,
`min` and `max` do not wrap.  A Go `bool` is a Lean `Bool`.
-/

namespace Vector2i

/-- Reduction of an integer to the `int32` range, as Go's `int32` arithmetic wraps. -/
def wrap32 (n : Int) : Int := (n + 2147483648) % 4294967296 - 2147483648

/-- The integer is a value of Go's `int32`. -/
def isInt32 (n : Int) : Prop := -2147483648 ≤ n ∧ n < 2147483648

instance (n : Int) : Decidable (isInt32 n) := by
  unfold isInt32; infer_instance

/-- The vector type `Vector2i.XY`: two `int32` components. -/
structure XY where
  X : Int
  Y : Int
deriving DecidableEq, Repr

/-- Both components are `int32` values. -/
def XY.valid (v : XY) : Prop := isInt32 v.X ∧ isInt32 v.Y

instance (v : XY) : Decidable v.valid := by
  unfold XY.valid; infer_instance

/-- Modelled from the spec: `Vector2i.Add`, whose file is not part of the sources at hand;
the rectangle's end "is equivalent to position + size", the componentwise `int32` sum. -/
def Add (a b : XY) : XY := ⟨wrap32 (a.X + b.X), wrap32 (a.Y + b.Y)⟩

/-- Modelled from the spec: `Vector2i.Sub`, whose file is not part of the sources at hand;
the componentwise `int32` difference, used by `Merge` to "make relative again". -/
def Sub (a b : XY) : XY := ⟨wrap32 (a.X - b.X), wrap32 (a.Y - b.Y)⟩

/-- Modelled from the spec: `Vector2i.Mini`, whose file is not part of the sources at hand;
the componentwise minimum of a vector and an integer. -/
def Mini (v : XY) (w : Int) : XY := ⟨min v.X w, min v.Y w⟩

/-- Absolute value of an `int32`: the negation wraps, so the minimum `int32` is its own
absolute value. -/
def absInt32 (x : Int) : Int := if x < 0 then wrap32 (-x) else x

/-- Modelled from the spec: `Vector2i.Abs`, whose file is not part of the sources at hand;
the componentwise absolute value, by which `Rect2i.Abs` makes width and height
"non-negative values". -/
def Abs (v : XY) : XY := ⟨absInt32 v.X, absInt32 v.Y⟩

/-- Modelled from the spec: `Vector2i.SubX`, whose file is not part of the sources at hand;
the componentwise `int32` difference of a vector and a scalar, by which `Expand` moves the
position back "by the given amount". -/
def SubX (v : XY) (x : Int) : XY := ⟨wrap32 (v.X - x), wrap32 (v.Y - x)⟩

/-- Modelled from the spec: `Vector2i.AddX`, whose file is not part of the sources at hand;
the componentwise `int32` sum of a vector and a scalar. -/
def AddX (v : XY) (x : Int) : XY := ⟨wrap32 (v.X + x), wrap32 (v.Y + x)⟩

end Vector2i

namespace Rect2i

open Vector2i

/-- The rectangle type `PositionSize`: an origin and a size. -/
structure PositionSize where
  Position : XY
  Size : XY
deriving DecidableEq, Repr

/-- All four fields are `int32` values. -/
def PositionSize.valid (r : PositionSize) : Prop := r.Position.valid ∧ r.Size.valid

instance (r : PositionSize) : Decidable r.valid := by
  unfold PositionSize.valid; infer_instance

/-- Position plus size does not leave the `int32` range on either axis. -/
def PositionSize.noOverflow (r : PositionSize) : Prop :=
  isInt32 (r.Position.X + r.Size.X) ∧ isInt32 (r.Position.Y + r.Size.Y)

instance (r : PositionSize) : Decidable r.noOverflow := by
  unfold PositionSize.noOverflow; infer_instance

/-- Width and height are non-negative. -/
def PositionSize.nonNegSize (r : PositionSize) : Prop := 0 ≤ r.Size.X ∧ 0 ≤ r.Size.Y

instance (r : PositionSize) : Decidable r.nonNegSize := by
  unfold PositionSize.nonNegSize; infer_instance

/-- The function `End`: the ending point, `Vector2i.Add(rect.Position, rect.Size)`. -/
def End (rect : PositionSize) : XY := Vector2i.Add rect.Position rect.Size

/-- The function `Abs`:
`PositionSize{Vector2i.Add(v.Position, Vector2i.Mini(v.Size, 0)), Vector2i.Abs(v.Size)}`. -/
def Abs (v : PositionSize) : PositionSize :=
  ⟨Vector2i.Add v.Position (Vector2i.Mini v.Size 0), Vector2i.Abs v.Size⟩

/-- The function `Inside`, as written: its first comparison reads
`b.Position.X >= a.Position.Y`. -/
def Inside (enclosure rect : PositionSize) : Bool :=
  let a := enclosure
  let b := rect
  decide (b.Position.X ≥ a.Position.Y) && decide (b.Position.Y ≥ a.Position.Y) &&
    decide (wrap32 (b.Position.X + b.Size.X) ≤ wrap32 (a.Position.X + a.Size.X)) &&
    decide (wrap32 (b.Position.Y + b.Size.Y) ≤ wrap32 (a.Position.Y + a.Size.Y))

/-- The function `HasArea`: positive width and height. -/
def HasArea (rect : PositionSize) : Bool :=
  decide (rect.Size.X > 0) && decide (rect.Size.Y > 0)

/-- The function `HasPoint`: four early returns, then `true`. -/
def HasPoint (rect : PositionSize) (point : XY) : Bool :=
  if point.X < rect.Position.X then false
  else if point.Y < rect.Position.Y then false
  else if point.X ≥ wrap32 (rect.Position.X + rect.Size.X) then false
  else if point.Y ≥ wrap32 (rect.Position.Y + rect.Size.Y) then false
  else true

/-- The constant `include_borders` of `Overlaps`. -/
def include_borders : Bool := false

/-- The function `Overlaps`, with both branches of its `include_borders` switch. -/
def Overlaps (a b : PositionSize) : Bool :=
  if include_borders then
    if a.Position.X > wrap32 (b.Position.X + b.Size.X) then false
    else if wrap32 (a.Position.X + a.Size.X) < b.Position.X then false
    else if a.Position.Y > wrap32 (b.Position.Y + b.Size.Y) then false
    else if wrap32 (a.Position.Y + b.Size.Y) < b.Position.Y then false
    else true
  else
    if a.Position.X ≥ wrap32 (b.Position.X + b.Size.X) then false
    else if wrap32 (a.Position.X + a.Size.X) ≤ b.Position.X then false
    else if a.Position.Y ≥ wrap32 (b.Position.Y + b.Size.Y) then false
    else if wrap32 (a.Position.Y + a.Size.Y) ≤ b.Position.Y then false
    else true

/-- The function `Intersection`: the zero rectangle unless the inputs overlap.  The local
`e` is the source's `end`, a reserved word here. -/
def Intersection (a b : PositionSize) : PositionSize :=
  if !Overlaps a b then ⟨⟨0, 0⟩, ⟨0, 0⟩⟩
  else
    let posX := max b.Position.X a.Position.X
    let posY := max b.Position.Y a.Position.Y
    let rect_end := Vector2i.Add b.Position b.Size
    let e := Vector2i.Add a.Position a.Size
    ⟨⟨posX, posY⟩, ⟨wrap32 (min rect_end.X e.X - posX), wrap32 (min rect_end.Y e.Y - posY)⟩⟩

/-- The function `Merge`: minimum of the positions, maximum of the ends, then the size is
made relative to the new position by `Vector2i.Sub`. -/
def Merge (a b : PositionSize) : PositionSize :=
  let posX := min b.Position.X a.Position.X
  let posY := min b.Position.Y a.Position.Y
  let sizeX := max (wrap32 (b.Position.X + b.Size.X)) (wrap32 (a.Position.X + a.Size.X))
  let sizeY := max (wrap32 (b.Position.Y + b.Size.Y)) (wrap32 (a.Position.Y + a.Size.Y))
  ⟨⟨posX, posY⟩, Vector2i.Sub ⟨sizeX, sizeY⟩ ⟨posX, posY⟩⟩

/-- The function `ExpandTo`: `begin` and `end` start as the position and the end of the
rectangle, each of the four tests moves one coordinate to the point, and the size is
`Vector2i.Sub(end, begin)`.  The locals carry a `0` when read and an axis once updated,
`begin` and `end` being reserved words here. -/
def ExpandTo (point : XY) (rect : PositionSize) : PositionSize :=
  let begin0 := rect.Position
  let end0 := Vector2i.Add rect.Position rect.Size
  let beginX := if point.X < begin0.X then point.X else begin0.X
  let beginY := if point.Y < begin0.Y then point.Y else begin0.Y
  let endX := if point.X > end0.X then point.X else end0.X
  let endY := if point.Y > end0.Y then point.Y else end0.Y
  ⟨⟨beginX, beginY⟩, Vector2i.Sub ⟨endX, endY⟩ ⟨beginX, beginY⟩⟩

/-- The function `Expand`.  Its amount has a type parameter `X` constrained by `Int.Any`,
whose declaration is not part of the sources at hand: `wrapX` is the reduction of an
integer to the range of `X`, in which `amount*2` is computed. -/
def Expand (wrapX : Int → Int) (rect : PositionSize) (amount : Int) : PositionSize :=
  ⟨Vector2i.SubX rect.Position amount, Vector2i.AddX rect.Size (wrapX (amount * 2))⟩

/-- The function `ExpandSides`: every amount is converted by `int32(...)`, the sums
`left + right` and `top + bottom` being computed in the type `X` first (`wrapX`, as in
`Expand`). -/
def ExpandSides (wrapX : Int → Int) (rect : PositionSize) (left top right bottom : Int) :
    PositionSize :=
  ⟨⟨wrap32 (rect.Position.X - wrap32 left), wrap32 (rect.Position.Y - wrap32 top)⟩,
    ⟨wrap32 (rect.Size.X + wrap32 (wrapX (left + right))),
      wrap32 (rect.Size.Y + wrap32 (wrapX (top + bottom)))⟩⟩

/-- The type `Side`, an `int`. -/
abbrev Side := Int

/-- The constant `SideLeft`. -/
def SideLeft : Side := 0

/-- The constant `SideTop`. -/
def SideTop : Side := 1

/-- The constant `SideRight`. -/
def SideRight : Side := 2

/-- The constant `SideBottom`. -/
def SideBottom : Side := 3

/-- The function `ExpandSide`, for an integer amount (the source also admits a float,
which `int32(amount)` truncates): a `switch` over the four sides, any other side leaving
the rectangle as it is. -/
def ExpandSide (rect : PositionSize) (side : Side) (amount : Int) : PositionSize :=
  if side = SideLeft then
    ⟨⟨wrap32 (rect.Position.X - wrap32 amount), rect.Position.Y⟩,
      ⟨wrap32 (rect.Size.X + wrap32 amount), rect.Size.Y⟩⟩
  else if side = SideTop then
    ⟨⟨rect.Position.X, wrap32 (rect.Position.Y - wrap32 amount)⟩,
      ⟨rect.Size.X, wrap32 (rect.Size.Y + wrap32 amount)⟩⟩
  else if side = SideRight then
    ⟨rect.Position, ⟨wrap32 (rect.Size.X + wrap32 amount), rect.Size.Y⟩⟩
  else if side = SideBottom then
    ⟨rect.Position, ⟨rect.Size.X, wrap32 (rect.Size.Y + wrap32 amount)⟩⟩
  else rect

/-- Reduction of an integer to the range of a signed Go integer type of the given width. -/
def wrapSigned (bits : Nat) (n : Int) : Int :=
  (n + 2 ^ (bits - 1)) % 2 ^ bits - 2 ^ (bits - 1)

/-- Reduction of an integer to the range of an unsigned Go integer type of the given
width. -/
def wrapUnsigned (bits : Nat) (n : Int) : Int := n % 2 ^ bits

/-- The arithmetic of the amount type agrees with arithmetic modulo 2^32: converting a
reduced value to `int32` gives what converting the unreduced value gives. -/
def agreesMod32 (wrapX : Int → Int) : Prop := ∀ n : Int, wrap32 (wrapX n) = wrap32 n

/-- The closed bounds of a rectangle: the points from its position to its end, both
inclusive. -/
def closedBounds (r : PositionSize) (p : XY) : Prop :=
  r.Position.X ≤ p.X ∧ p.X ≤ (End r).X ∧ r.Position.Y ≤ p.Y ∧ p.Y ≤ (End r).Y

instance (r : PositionSize) (p : XY) : Decidable (closedBounds r p) := by
  unfold closedBounds; infer_instance

end Rect2i

/-! # Generated enum constants and dispatch tables -/

namespace Generate

/-- What a generated `Virtual(name string) reflect.Value` returns: `reflect.ValueOf(self.m)`
for a method `m`, `gd.VirtualByName(S.K(self.AsS()), name)` for a parent package `S` and
its receiver kind `K`, or the zero `reflect.Value`. -/
inductive Value where
  | ofMethod (method : String)
  | virtualByName (super kind : String)
  | zero
deriving DecidableEq, Repr

/-- Modelled from the spec: the type `gdjson.Method`, declared outside the sources at
hand; of a method "described" by the engine specification, the fields the dispatch table
reads: its engine name and whether it is virtual. -/
structure Method where
  Name : String
  IsVirtual : Bool
deriving DecidableEq, Repr

/-- Modelled from the spec: the type `gdjson.Class`, declared outside the sources at hand;
of a "described class", the fields the dispatch table reads: its name, the name of the
class it inherits from (empty when none), whether it is a singleton, and its methods. -/
structure Class where
  Name : String
  Inherits : String
  IsSingleton : Bool
  Methods : List Method
deriving DecidableEq, Repr

/-- The zero value of `gdjson.Class`, which a Go map returns for a key it does not hold. -/
def Class.zero : Class := ⟨"", "", false, []⟩

/-- The type `ClassDB`, a Go map from class names to classes, as its list of entries. -/
abbrev ClassDB := List (String × Class)

/-- The map lookup `classDB[key]`: the zero class when the key is absent. -/
def ClassDB.get (classDB : ClassDB) (key : String) : Class :=
  match classDB.lookup key with
  | some c => c
  | none => Class.zero

/-- One `fmt.Fprintf` call of the loop that writes the `Virtual` functions in
`generateObjectPackage`, with the arguments of its format. -/
inductive Emit where
  | funcVirtual (self : String)
  | switchName
  | caseReturn (key method : String)
  | defaultVirtualByName (super name : String)
  | defaultZero
  | closeSwitch
  | closeFunc
deriving DecidableEq, Repr

/-- The text each call writes: the format of the source with its arguments filled in. -/
def Emit.text : Emit → String
  | .funcVirtual self => "\nfunc (self " ++ self ++ ") Virtual(name string) reflect.Value \x7b\n"
  | .switchName => "\tswitch name \x7b\n"
  | .caseReturn key method =>
    "\tcase \"" ++ key ++ "\": return reflect.ValueOf(self." ++ method ++ ");\n"
  | .defaultVirtualByName super name =>
    "\tdefault: return gd.VirtualByName(" ++ super ++ "." ++ name ++ "(self.As" ++ super ++
      "()), name)\n"
  | .defaultZero => "\tdefault: return reflect.Value\x7b\x7d\n"
  | .closeSwitch => "\t\x7d\n"
  | .closeFunc => "\x7d\n"

/-- The loop `for _, method := range class.Methods`: one `case` for each virtual method,
with the method name as key and as the method whose value is returned. -/
def emitCases : List Method → List Emit
  | [] => []
  | method :: rest =>
    if method.IsVirtual then .caseReturn method.Name method.Name :: emitCases rest
    else emitCases rest

/-- The `default` of the switch.  `super` is `classDB[class.Inherits]`, read before the
loop; the test is `class.Inherits != "" && !classDB[class.Inherits].IsSingleton`, and the
receiver kind is `Instance` for the receiver `Instance` and `Advanced` otherwise. -/
def emitDefault (classDB : ClassDB) (cls : Class) (self : String) : Emit :=
  let super := classDB.get cls.Inherits
  if cls.Inherits != "" && !(classDB.get cls.Inherits).IsSingleton then
    let name := if self != "Instance" then "Advanced" else "Instance"
    .defaultVirtualByName super.Name name
  else .defaultZero

/-- The body of the loop for one receiver `self`: the function header, the switch, its
cases, its default, and the two closing braces. -/
def emitVirtual (classDB : ClassDB) (cls : Class) (self : String) : List Emit :=
  [.funcVirtual self, .switchName] ++ emitCases cls.Methods ++
    [emitDefault classDB cls self, .closeSwitch, .closeFunc]

/-- The loop `for _, self := range []string{"class", "Instance"}` of
`generateObjectPackage`, which skips `Instance` for a singleton. -/
def generateVirtual (classDB : ClassDB) (cls : Class) (singleton : Bool) : List Emit :=
  (["class", "Instance"] : List String).foldl
    (fun out self =>
      if self == "Instance" && singleton then out else out ++ emitVirtual classDB cls self)
    []

/-- The text written for the `Virtual` functions. -/
def generateVirtualText (classDB : ClassDB) (cls : Class) (singleton : Bool) : String :=
  String.join ((generateVirtual classDB cls singleton).map Emit.text)

/-- The first `case` of the written switch whose key is the name, if any. -/
def switchCase (name : String) : List Emit → Option Value
  | [] => none
  | .caseReturn key method :: rest =>
    if key = name then some (.ofMethod method) else switchCase name rest
  | _ :: rest => switchCase name rest

/-- The `default` of the written switch. -/
def switchDefault : List Emit → Option Value
  | [] => none
  | .defaultVirtualByName super name :: _ => some (.virtualByName super name)
  | .defaultZero :: _ => some .zero
  | _ :: rest => switchDefault rest

/-- What the written function returns when called with a name, read as Go reads a
`switch`: the first matching case, otherwise the default. -/
def callVirtual (body : List Emit) (name : String) : Option Value :=
  match switchCase name body with
  | some v => some v
  | none => switchDefault body

/-- The keys and methods of the `case` lines written, in order. -/
def caseLines : List Emit → List (String × String)
  | [] => []
  | .caseReturn key method :: rest => (key, method) :: caseLines rest
  | _ :: rest => caseLines rest

/-- The virtual methods of a class, in order. -/
def virtualMethods (cls : Class) : List Method := cls.Methods.filter (fun m => m.IsVirtual)

/-- The direct parent of a class: the class the database holds under the name the class
inherits from. -/
def directParent (classDB : ClassDB) (cls : Class) : Class := classDB.get cls.Inherits

/-- The dispatch table as the specification words it: a virtual method of the class under
its engine name returns its own thunk; any other name falls through to the table of the
direct parent, under the parent's name, when the class inherits from a class that is not
a singleton, and otherwise returns the zero value. -/
def specVirtual (classDB : ClassDB) (cls : Class) (kind : String) (name : String) : Value :=
  if name ∈ (virtualMethods cls).map (fun m => m.Name) then .ofMethod name
  else if cls.Inherits ≠ "" ∧ (directParent classDB cls).IsSingleton = false then
    .virtualByName (directParent classDB cls).Name kind
  else .zero

/-- The `case` the specification describes for a virtual method, as Go text: keyed by the
engine method name, returning the value of the method of that name. -/
def specCaseText (m : Method) : String :=
  "\tcase \"" ++ m.Name ++ "\": return reflect.ValueOf(self." ++ m.Name ++ ");\n"

/-- The `default` the specification describes, as Go text: the table of the direct parent,
of the same receiver kind, when the class inherits from a class that is not a singleton,
and the zero `reflect.Value` otherwise. -/
def specDefaultText (classDB : ClassDB) (cls : Class) (kind : String) : String :=
  if cls.Inherits ≠ "" ∧ (directParent classDB cls).IsSingleton = false then
    "\tdefault: return gd.VirtualByName(" ++ (directParent classDB cls).Name ++ "." ++ kind ++
      "(self.As" ++ (directParent classDB cls).Name ++ "()), name)\n"
  else "\tdefault: return reflect.Value\x7b\x7d\n"

/-- The `Virtual` function the specification describes for one receiver, as the pieces of
its Go text: the header, the switch, one `case` per virtual method, the `default`, and
the closing braces. -/
def specFuncLines (classDB : ClassDB) (cls : Class) (receiver kind : String) : List String :=
  ["\nfunc (self " ++ receiver ++ ") Virtual(name string) reflect.Value \x7b\n",
    "\tswitch name \x7b\n"] ++
    (virtualMethods cls).map specCaseText ++
    [specDefaultText classDB cls kind, "\t\x7d\n", "\x7d\n"]

/-- The text the specification describes for a class: the function of the receiver
`class`, delegating to the `Advanced` kind, then, unless the class is a singleton, that
of the receiver `Instance`, delegating to the `Instance` kind. -/
def specVirtualText (classDB : ClassDB) (cls : Class) (singleton : Bool) : String :=
  String.join (specFuncLines classDB cls "class" "Advanced" ++
    (if singleton = true then [] else specFuncLines classDB cls "Instance" "Instance"))

/-- The description of `EditorSceneFormatImporter` its package was written from: four
virtual methods and two ordinary ones, inheriting from `RefCounted`. -/
def classEditorSceneFormatImporter : Class :=
  ⟨"EditorSceneFormatImporter", "RefCounted", false,
    [⟨"_get_extensions", true⟩, ⟨"_import_scene", true⟩, ⟨"_get_import_options", true⟩,
      ⟨"_get_option_visibility", true⟩, ⟨"add_import_option", false⟩,
      ⟨"add_import_option_advanced", false⟩]⟩

/-- The description of `TextureCubemapArrayRD` its package was written from: no method,
inheriting from `TextureLayeredRD`. -/
def classTextureCubemapArrayRD : Class :=
  ⟨"TextureCubemapArrayRD", "TextureLayeredRD", false, []⟩

/-- A class database holding the two classes and their parents, methods of the parents
left out. -/
def exampleClassDB : ClassDB :=
  [("RefCounted", ⟨"RefCounted", "Object", false, []⟩),
    ("TextureLayeredRD", ⟨"TextureLayeredRD", "TextureLayered", false, []⟩),
    ("EditorSceneFormatImporter", classEditorSceneFormatImporter),
    ("TextureCubemapArrayRD", classTextureCubemapArrayRD)]

end Generate

namespace EditorSceneFormatImporter

open Generate

/-- The type `PropertyHint`, an `int`. -/
abbrev PropertyHint := Int

/-- The constant `PropertyHintNone`. -/
def PropertyHintNone : PropertyHint := 0

/-- The constant `PropertyHintRange`. -/
def PropertyHintRange : PropertyHint := 1

/-- The constant `PropertyHintEnum`. -/
def PropertyHintEnum : PropertyHint := 2

/-- The constant `PropertyHintEnumSuggestion`. -/
def PropertyHintEnumSuggestion : PropertyHint := 3

/-- The constant `PropertyHintExpEasing`. -/
def PropertyHintExpEasing : PropertyHint := 4

/-- The constant `PropertyHintLink`. -/
def PropertyHintLink : PropertyHint := 5

/-- The constant `PropertyHintFlags`. -/
def PropertyHintFlags : PropertyHint := 6

/-- The constant `PropertyHintLayers2dRender`. -/
def PropertyHintLayers2dRender : PropertyHint := 7

/-- The constant `PropertyHintLayers2dPhysics`. -/
def PropertyHintLayers2dPhysics : PropertyHint := 8

/-- The constant `PropertyHintLayers2dNavigation`. -/
def PropertyHintLayers2dNavigation : PropertyHint := 9

/-- The constant `PropertyHintLayers3dRender`. -/
def PropertyHintLayers3dRender : PropertyHint := 10

/-- The constant `PropertyHintLayers3dPhysics`. -/
def PropertyHintLayers3dPhysics : PropertyHint := 11

/-- The constant `PropertyHintLayers3dNavigation`. -/
def PropertyHintLayers3dNavigation : PropertyHint := 12

/-- The constant `PropertyHintLayersAvoidance`. -/
def PropertyHintLayersAvoidance : PropertyHint := 37

/-- The constant `PropertyHintFile`. -/
def PropertyHintFile : PropertyHint := 13

/-- The constant `PropertyHintDir`. -/
def PropertyHintDir : PropertyHint := 14

/-- The constant `PropertyHintGlobalFile`. -/
def PropertyHintGlobalFile : PropertyHint := 15

/-- The constant `PropertyHintGlobalDir`. -/
def PropertyHintGlobalDir : PropertyHint := 16

/-- The constant `PropertyHintResourceType`. -/
def PropertyHintResourceType : PropertyHint := 17

/-- The constant `PropertyHintMultilineText`. -/
def PropertyHintMultilineText : PropertyHint := 18

/-- The constant `PropertyHintExpression`. -/
def PropertyHintExpression : PropertyHint := 19

/-- The constant `PropertyHintPlaceholderText`. -/
def PropertyHintPlaceholderText : PropertyHint := 20

/-- The constant `PropertyHintColorNoAlpha`. -/
def PropertyHintColorNoAlpha : PropertyHint := 21

/-- The constant `PropertyHintObjectId`. -/
def PropertyHintObjectId : PropertyHint := 22

/-- The constant `PropertyHintTypeString`. -/
def PropertyHintTypeString : PropertyHint := 23

/-- The constant `PropertyHintNodePathToEditedNode`. -/
def PropertyHintNodePathToEditedNode : PropertyHint := 24

/-- The constant `PropertyHintObjectTooBig`. -/
def PropertyHintObjectTooBig : PropertyHint := 25

/-- The constant `PropertyHintNodePathValidTypes`. -/
def PropertyHintNodePathValidTypes : PropertyHint := 26

/-- The constant `PropertyHintSaveFile`. -/
def PropertyHintSaveFile : PropertyHint := 27

/-- The constant `PropertyHintGlobalSaveFile`. -/
def PropertyHintGlobalSaveFile : PropertyHint := 28

/-- The constant `PropertyHintIntIsObjectid`. -/
def PropertyHintIntIsObjectid : PropertyHint := 29

/-- The constant `PropertyHintIntIsPointer`. -/
def PropertyHintIntIsPointer : PropertyHint := 30

/-- The constant `PropertyHintArrayType`. -/
def PropertyHintArrayType : PropertyHint := 31

/-- The constant `PropertyHintDictionaryType`. -/
def PropertyHintDictionaryType : PropertyHint := 38

/-- The constant `PropertyHintLocaleId`. -/
def PropertyHintLocaleId : PropertyHint := 32

/-- The constant `PropertyHintLocalizableString`. -/
def PropertyHintLocalizableString : PropertyHint := 33

/-- The constant `PropertyHintNodeType`. -/
def PropertyHintNodeType : PropertyHint := 34

/-- The constant `PropertyHintHideQuaternionEdit`. -/
def PropertyHintHideQuaternionEdit : PropertyHint := 35

/-- The constant `PropertyHintPassword`. -/
def PropertyHintPassword : PropertyHint := 36

/-- The constant `PropertyHintToolButton`. -/
def PropertyHintToolButton : PropertyHint := 39

/-- The constant `PropertyHintOneshot`. -/
def PropertyHintOneshot : PropertyHint := 40

/-- The constant `PropertyHintMax`. -/
def PropertyHintMax : PropertyHint := 42

/-- The `PropertyHint` constants of the `const` block other than `PropertyHintMax`, in the
order of their declaration. -/
def PropertyHint_others : List PropertyHint :=
  [PropertyHintNone, PropertyHintRange, PropertyHintEnum,
    PropertyHintEnumSuggestion, PropertyHintExpEasing, PropertyHintLink,
    PropertyHintFlags, PropertyHintLayers2dRender, PropertyHintLayers2dPhysics,
    PropertyHintLayers2dNavigation, PropertyHintLayers3dRender, PropertyHintLayers3dPhysics,
    PropertyHintLayers3dNavigation, PropertyHintLayersAvoidance, PropertyHintFile,
    PropertyHintDir, PropertyHintGlobalFile, PropertyHintGlobalDir,
    PropertyHintResourceType, PropertyHintMultilineText, PropertyHintExpression,
    PropertyHintPlaceholderText, PropertyHintColorNoAlpha, PropertyHintObjectId,
    PropertyHintTypeString, PropertyHintNodePathToEditedNode, PropertyHintObjectTooBig,
    PropertyHintNodePathValidTypes, PropertyHintSaveFile, PropertyHintGlobalSaveFile,
    PropertyHintIntIsObjectid, PropertyHintIntIsPointer, PropertyHintArrayType,
    PropertyHintDictionaryType, PropertyHintLocaleId, PropertyHintLocalizableString,
    PropertyHintNodeType, PropertyHintHideQuaternionEdit, PropertyHintPassword,
    PropertyHintToolButton, PropertyHintOneshot]

/-- The type `VariantType`, an `int`, declared after `PropertyHint` in the same file. -/
abbrev VariantType := Int

/-- The constant `TypeNil`. -/
def TypeNil : VariantType := 0

/-- The constant `TypeBool`. -/
def TypeBool : VariantType := 1

/-- The constant `TypeInt`. -/
def TypeInt : VariantType := 2

/-- The constant `TypeFloat`. -/
def TypeFloat : VariantType := 3

/-- The constant `TypeString`. -/
def TypeString : VariantType := 4

/-- The constant `TypeVector2`. -/
def TypeVector2 : VariantType := 5

/-- The constant `TypeVector2i`. -/
def TypeVector2i : VariantType := 6

/-- The constant `TypeRect2`. -/
def TypeRect2 : VariantType := 7

/-- The constant `TypeRect2i`. -/
def TypeRect2i : VariantType := 8

/-- The constant `TypeVector3`. -/
def TypeVector3 : VariantType := 9

/-- The constant `TypeVector3i`. -/
def TypeVector3i : VariantType := 10

/-- The constant `TypeTransform2d`. -/
def TypeTransform2d : VariantType := 11

/-- The constant `TypeVector4`. -/
def TypeVector4 : VariantType := 12

/-- The constant `TypeVector4i`. -/
def TypeVector4i : VariantType := 13

/-- The constant `TypePlane`. -/
def TypePlane : VariantType := 14

/-- The constant `TypeQuaternion`. -/
def TypeQuaternion : VariantType := 15

/-- The constant `TypeAabb`. -/
def TypeAabb : VariantType := 16

/-- The constant `TypeBasis`. -/
def TypeBasis : VariantType := 17

/-- The constant `TypeTransform3d`. -/
def TypeTransform3d : VariantType := 18

/-- The constant `TypeProjection`. -/
def TypeProjection : VariantType := 19

/-- The constant `TypeColor`. -/
def TypeColor : VariantType := 20

/-- The constant `TypeStringName`. -/
def TypeStringName : VariantType := 21

/-- The constant `TypeNodePath`. -/
def TypeNodePath : VariantType := 22

/-- The constant `TypeRid`. -/
def TypeRid : VariantType := 23

/-- The constant `TypeObject`. -/
def TypeObject : VariantType := 24

/-- The constant `TypeCallable`. -/
def TypeCallable : VariantType := 25

/-- The constant `TypeSignal`. -/
def TypeSignal : VariantType := 26

/-- The constant `TypeDictionary`. -/
def TypeDictionary : VariantType := 27

/-- The constant `TypeArray`. -/
def TypeArray : VariantType := 28

/-- The constant `TypePackedByteArray`. -/
def TypePackedByteArray : VariantType := 29

/-- The constant `TypePackedInt32Array`. -/
def TypePackedInt32Array : VariantType := 30

/-- The constant `TypePackedInt64Array`. -/
def TypePackedInt64Array : VariantType := 31

/-- The constant `TypePackedFloat32Array`. -/
def TypePackedFloat32Array : VariantType := 32

/-- The constant `TypePackedFloat64Array`. -/
def TypePackedFloat64Array : VariantType := 33

/-- The constant `TypePackedStringArray`. -/
def TypePackedStringArray : VariantType := 34

/-- The constant `TypePackedVector2Array`. -/
def TypePackedVector2Array : VariantType := 35

/-- The constant `TypePackedVector3Array`. -/
def TypePackedVector3Array : VariantType := 36

/-- The constant `TypePackedColorArray`. -/
def TypePackedColorArray : VariantType := 37

/-- The constant `TypePackedVector4Array`. -/
def TypePackedVector4Array : VariantType := 38

/-- The constant `TypeMax`. -/
def TypeMax : VariantType := 39

/-- The `VariantType` constants of the `const` block other than `TypeMax`, in the order of
their declaration. -/
def VariantType_others : List VariantType :=
  [TypeNil, TypeBool, TypeInt, TypeFloat,
    TypeString, TypeVector2, TypeVector2i, TypeRect2,
    TypeRect2i, TypeVector3, TypeVector3i, TypeTransform2d,
    TypeVector4, TypeVector4i, TypePlane, TypeQuaternion,
    TypeAabb, TypeBasis, TypeTransform3d, TypeProjection,
    TypeColor, TypeStringName, TypeNodePath, TypeRid,
    TypeObject, TypeCallable, TypeSignal, TypeDictionary,
    TypeArray, TypePackedByteArray, TypePackedInt32Array, TypePackedInt64Array,
    TypePackedFloat32Array, TypePackedFloat64Array, TypePackedStringArray, TypePackedVector2Array,
    TypePackedVector3Array, TypePackedColorArray, TypePackedVector4Array]

/-- The function `Virtual` of the receiver `class` (the type `Advanced`). -/
def Advanced.Virtual (name : String) : Value :=
  if name = "_get_extensions" then .ofMethod "_get_extensions"
  else if name = "_import_scene" then .ofMethod "_import_scene"
  else if name = "_get_import_options" then .ofMethod "_get_import_options"
  else if name = "_get_option_visibility" then .ofMethod "_get_option_visibility"
  else .virtualByName "RefCounted" "Advanced"

/-- The function `Virtual` of the receiver `Instance`. -/
def Instance.Virtual (name : String) : Value :=
  if name = "_get_extensions" then .ofMethod "_get_extensions"
  else if name = "_import_scene" then .ofMethod "_import_scene"
  else if name = "_get_import_options" then .ofMethod "_get_import_options"
  else if name = "_get_option_visibility" then .ofMethod "_get_option_visibility"
  else .virtualByName "RefCounted" "Instance"

end EditorSceneFormatImporter

namespace TextureCubemapArrayRD

open Generate

/-- The function `Virtual` of the receiver `class` (the type `Advanced`): a `switch` with a
`default` only. -/
def Advanced.Virtual (_name : String) : Value := .virtualByName "TextureLayeredRD" "Advanced"

/-- The function `Virtual` of the receiver `Instance`. -/
def Instance.Virtual (_name : String) : Value := .virtualByName "TextureLayeredRD" "Instance"

end TextureCubemapArrayRD

namespace Rect2i

open Vector2i

/-! ## Arithmetic of `wrap32` -/

theorem wrap32_of_isInt32 {n : Int} (h : isInt32 n) : wrap32 n = n := by
  unfold isInt32 at h
  unfold wrap32
  omega

theorem isInt32_wrap32 (n : Int) : isInt32 (wrap32 n) := by
  unfold isInt32 wrap32
  omega

theorem wrap32_add_wrap32_sub (x y : Int) : wrap32 (x + wrap32 (y - x)) = wrap32 y := by
  unfold wrap32
  omega

theorem wrap32_wrap32 (n : Int) : wrap32 (wrap32 n) = wrap32 n := by
  unfold wrap32
  omega

theorem wrap32_min_wrap32 (x y : Int) :
    wrap32 (min (wrap32 x) (wrap32 y)) = min (wrap32 x) (wrap32 y) := by
  apply wrap32_of_isInt32
  have hx := isInt32_wrap32 x
  have hy := isInt32_wrap32 y
  unfold isInt32 at *
  omega

theorem wrap32_max_wrap32 (x y : Int) :
    wrap32 (max (wrap32 x) (wrap32 y)) = max (wrap32 x) (wrap32 y) := by
  apply wrap32_of_isInt32
  have hx := isInt32_wrap32 x
  have hy := isInt32_wrap32 y
  unfold isInt32 at *
  omega

theorem wrap32_zero : wrap32 0 = 0 := by
  decide

theorem agreesMod32_wrap32 : agreesMod32 wrap32 :=
  fun n => wrap32_wrap32 n

theorem agreesMod32_wrapSigned_32 : agreesMod32 (wrapSigned 32) := by
  intro n
  have e1 : (2 : Int) ^ (32 - 1) = 2147483648 := by norm_num
  have e2 : (2 : Int) ^ 32 = 4294967296 := by norm_num
  simp only [wrapSigned, wrap32, e1, e2]
  omega

theorem agreesMod32_wrapSigned_64 : agreesMod32 (wrapSigned 64) := by
  intro n
  have e1 : (2 : Int) ^ (64 - 1) = 9223372036854775808 := by norm_num
  have e2 : (2 : Int) ^ 64 = 18446744073709551616 := by norm_num
  simp only [wrapSigned, wrap32, e1, e2]
  omega

theorem agreesMod32_wrapUnsigned_32 : agreesMod32 (wrapUnsigned 32) := by
  intro n
  have e2 : (2 : Int) ^ 32 = 4294967296 := by norm_num
  simp only [wrapUnsigned, wrap32, e2]
  omega

theorem agreesMod32_wrapUnsigned_64 : agreesMod32 (wrapUnsigned 64) := by
  intro n
  have e2 : (2 : Int) ^ 64 = 18446744073709551616 := by norm_num
  simp only [wrapUnsigned, wrap32, e2]
  omega

/-! ## The tests as propositions -/

theorem HasPoint_eq_true_iff (rect : PositionSize) (point : XY) :
    HasPoint rect point = true ↔
      rect.Position.X ≤ point.X ∧ rect.Position.Y ≤ point.Y ∧
      point.X < wrap32 (rect.Position.X + rect.Size.X) ∧
      point.Y < wrap32 (rect.Position.Y + rect.Size.Y) := by
  unfold HasPoint
  split_ifs <;> simp <;> omega

theorem Overlaps_eq_true_iff (a b : PositionSize) :
    Overlaps a b = true ↔
      a.Position.X < wrap32 (b.Position.X + b.Size.X) ∧
      b.Position.X < wrap32 (a.Position.X + a.Size.X) ∧
      a.Position.Y < wrap32 (b.Position.Y + b.Size.Y) ∧
      b.Position.Y < wrap32 (a.Position.Y + a.Size.Y) := by
  unfold Overlaps include_borders
  simp only [Bool.false_eq_true, if_false]
  split_ifs <;> simp <;> omega

theorem Merge_Position (a b : PositionSize) :
    (Merge a b).Position =
      ⟨min a.Position.X b.Position.X, min a.Position.Y b.Position.Y⟩ := by
  simp only [Merge, XY.mk.injEq]
  exact ⟨min_comm _ _, min_comm _ _⟩

theorem End_Merge (a b : PositionSize) :
    End (Merge a b) = ⟨max (End a).X (End b).X, max (End a).Y (End b).Y⟩ := by
  simp only [Merge, End, Vector2i.Add, Vector2i.Sub, XY.mk.injEq]
  constructor
  · rw [wrap32_add_wrap32_sub, wrap32_max_wrap32, max_comm]
  · rw [wrap32_add_wrap32_sub, wrap32_max_wrap32, max_comm]

/-! ## Containment: `Inside` -/

/-- C1: `Inside` does not decide containment.  With enclosure at (0,5) of size 10x10 and
a rectangle at (1,6) of size 1x1, all four containment inequalities hold and `Inside` is
false; with enclosure at (5,0) and a rectangle at (0,0), the rectangle starts left of the
enclosure and `Inside` is true.  The first test compares an X with a Y. -/
theorem Inside_compares_X_with_Y :
    ((⟨⟨0, 5⟩, ⟨10, 10⟩⟩ : PositionSize).valid ∧ (⟨⟨1, 6⟩, ⟨1, 1⟩⟩ : PositionSize).valid ∧
      (⟨⟨0, 5⟩, ⟨10, 10⟩⟩ : PositionSize).noOverflow ∧
      (⟨⟨1, 6⟩, ⟨1, 1⟩⟩ : PositionSize).noOverflow ∧
      ((1 : Int) ≥ 0 ∧ (6 : Int) ≥ 5 ∧ (1 : Int) + 1 ≤ 0 + 10 ∧ (6 : Int) + 1 ≤ 5 + 10) ∧
      Inside ⟨⟨0, 5⟩, ⟨10, 10⟩⟩ ⟨⟨1, 6⟩, ⟨1, 1⟩⟩ = false) ∧
    ((⟨⟨5, 0⟩, ⟨10, 10⟩⟩ : PositionSize).valid ∧ (⟨⟨0, 0⟩, ⟨1, 1⟩⟩ : PositionSize).valid ∧
      (⟨⟨5, 0⟩, ⟨10, 10⟩⟩ : PositionSize).noOverflow ∧
      (⟨⟨0, 0⟩, ⟨1, 1⟩⟩ : PositionSize).noOverflow ∧
      ¬ ((0 : Int) ≥ 5) ∧
      Inside ⟨⟨5, 0⟩, ⟨10, 10⟩⟩ ⟨⟨0, 0⟩, ⟨1, 1⟩⟩ = true) := by
  decide

/-! ## Union: `Merge` -/

/-- C2: `Merge` does not enclose its inputs in the sense of `Inside`.  For a at (0,5) of
size 1x1 and b at (2,7) of size 3x3 the union is at (0,5) with size 5x5, and `Inside`
of the union is false for a and for b. -/
theorem Merge_not_Inside :
    (⟨⟨0, 5⟩, ⟨1, 1⟩⟩ : PositionSize).valid ∧ (⟨⟨2, 7⟩, ⟨3, 3⟩⟩ : PositionSize).valid ∧
    (⟨⟨0, 5⟩, ⟨1, 1⟩⟩ : PositionSize).noOverflow ∧
    (⟨⟨2, 7⟩, ⟨3, 3⟩⟩ : PositionSize).noOverflow ∧
    (⟨⟨0, 5⟩, ⟨1, 1⟩⟩ : PositionSize).nonNegSize ∧
    (⟨⟨2, 7⟩, ⟨3, 3⟩⟩ : PositionSize).nonNegSize ∧
    Merge ⟨⟨0, 5⟩, ⟨1, 1⟩⟩ ⟨⟨2, 7⟩, ⟨3, 3⟩⟩ = ⟨⟨0, 5⟩, ⟨5, 5⟩⟩ ∧
    Inside (Merge ⟨⟨0, 5⟩, ⟨1, 1⟩⟩ ⟨⟨2, 7⟩, ⟨3, 3⟩⟩) ⟨⟨0, 5⟩, ⟨1, 1⟩⟩ = false ∧
    Inside (Merge ⟨⟨0, 5⟩, ⟨1, 1⟩⟩ ⟨⟨2, 7⟩, ⟨3, 3⟩⟩) ⟨⟨2, 7⟩, ⟨3, 3⟩⟩ = false := by
  decide

/-- C3: `Merge` is the bounding-box union.  Its position is the componentwise minimum of
the two positions and its end the componentwise maximum of the two ends; and when both
inputs have non-negative size and no overflow, its closed bounds contain those of a and
of b and lie within the closed bounds of every rectangle that contains both. -/
theorem Merge_bounding_box (a b : PositionSize) :
    (Merge a b).Position = ⟨min a.Position.X b.Position.X, min a.Position.Y b.Position.Y⟩ ∧
    End (Merge a b) = ⟨max (End a).X (End b).X, max (End a).Y (End b).Y⟩ ∧
    (a.noOverflow → b.noOverflow → a.nonNegSize → b.nonNegSize →
      (∀ p, closedBounds a p → closedBounds (Merge a b) p) ∧
      (∀ p, closedBounds b p → closedBounds (Merge a b) p) ∧
      ∀ r : PositionSize, (∀ p, closedBounds a p → closedBounds r p) →
        (∀ p, closedBounds b p → closedBounds r p) →
        ∀ p, closedBounds (Merge a b) p → closedBounds r p) := by
  refine ⟨Merge_Position a b, End_Merge a b, ?_⟩
  intro ha hb hna hnb
  unfold PositionSize.noOverflow at ha hb
  unfold PositionSize.nonNegSize at hna hnb
  have eax : (End a).X = a.Position.X + a.Size.X := wrap32_of_isInt32 ha.1
  have eay : (End a).Y = a.Position.Y + a.Size.Y := wrap32_of_isInt32 ha.2
  have ebx : (End b).X = b.Position.X + b.Size.X := wrap32_of_isInt32 hb.1
  have eby : (End b).Y = b.Position.Y + b.Size.Y := wrap32_of_isInt32 hb.2
  unfold closedBounds
  rw [End_Merge, Merge_Position]
  refine ⟨?_, ?_, ?_⟩
  · intro p hp
    simp only
    omega
  · intro p hp
    simp only
    omega
  · intro r hra hrb p hp
    have h1 := hra a.Position (by omega)
    have h2 := hra (End a) (by omega)
    have h3 := hrb b.Position (by omega)
    have h4 := hrb (End b) (by omega)
    simp only at hp
    omega

/-- C3, at a concrete input: a at (0,5) of size 1x1 and b at (2,7) of size 3x3. -/
theorem Merge_bounding_box_witness :
    (Merge ⟨⟨0, 5⟩, ⟨1, 1⟩⟩ ⟨⟨2, 7⟩, ⟨3, 3⟩⟩).Position = ⟨0, 5⟩ ∧
    End (Merge ⟨⟨0, 5⟩, ⟨1, 1⟩⟩ ⟨⟨2, 7⟩, ⟨3, 3⟩⟩) = ⟨5, 10⟩ ∧
    ∀ r : PositionSize,
      (∀ p, closedBounds ⟨⟨0, 5⟩, ⟨1, 1⟩⟩ p → closedBounds r p) →
      (∀ p, closedBounds ⟨⟨2, 7⟩, ⟨3, 3⟩⟩ p → closedBounds r p) →
      ∀ p, closedBounds (Merge ⟨⟨0, 5⟩, ⟨1, 1⟩⟩ ⟨⟨2, 7⟩, ⟨3, 3⟩⟩) p → closedBounds r p :=
  ⟨(Merge_bounding_box ⟨⟨0, 5⟩, ⟨1, 1⟩⟩ ⟨⟨2, 7⟩, ⟨3, 3⟩⟩).1,
    (Merge_bounding_box ⟨⟨0, 5⟩, ⟨1, 1⟩⟩ ⟨⟨2, 7⟩, ⟨3, 3⟩⟩).2.1,
    ((Merge_bounding_box ⟨⟨0, 5⟩, ⟨1, 1⟩⟩ ⟨⟨2, 7⟩, ⟨3, 3⟩⟩).2.2
      (by decide) (by decide) (by decide) (by decide)).2.2⟩

/-! ## Intersection and overlap -/

/-- C4: `Intersection` is the set intersection with respect to `HasPoint`: a point is in
the intersection of a and b exactly when it is in a and in b.  This holds for all
rectangles, so in particular for those of non-negative size without overflow. -/
theorem HasPoint_Intersection (a b : PositionSize) (p : XY) :
    HasPoint (Intersection a b) p = true ↔ (HasPoint a p = true ∧ HasPoint b p = true) := by
  unfold Intersection
  by_cases h : Overlaps a b = true
  · simp only [h, Bool.not_true, Bool.false_eq_true, if_false]
    rw [HasPoint_eq_true_iff, HasPoint_eq_true_iff, HasPoint_eq_true_iff]
    simp only [Vector2i.Add, wrap32_add_wrap32_sub, wrap32_min_wrap32]
    omega
  · have h2 : Overlaps a b = false := by simpa using h
    simp only [h2, Bool.not_false, if_true]
    rw [Overlaps_eq_true_iff] at h
    rw [HasPoint_eq_true_iff, HasPoint_eq_true_iff, HasPoint_eq_true_iff]
    have hz : wrap32 (0 + 0) = 0 := by decide
    simp only [hz]
    omega

/-- C5: without overlap `Intersection` is the zero rectangle; with overlap its position is
the componentwise maximum of the two positions and its end the componentwise minimum of
the two ends. -/
theorem Intersection_cases (a b : PositionSize) :
    (Overlaps a b = false → Intersection a b = ⟨⟨0, 0⟩, ⟨0, 0⟩⟩) ∧
    (Overlaps a b = true →
      (Intersection a b).Position =
        ⟨max a.Position.X b.Position.X, max a.Position.Y b.Position.Y⟩ ∧
      End (Intersection a b) = ⟨min (End a).X (End b).X, min (End a).Y (End b).Y⟩) := by
  constructor
  · intro h
    simp [Intersection, h]
  · intro h
    simp only [Intersection, h, Bool.not_true, Bool.false_eq_true, if_false, End,
      Vector2i.Add, wrap32_add_wrap32_sub, wrap32_min_wrap32, XY.mk.injEq]
    exact ⟨⟨max_comm _ _, max_comm _ _⟩, min_comm _ _, min_comm _ _⟩

/-- C5, at concrete inputs: 4x4 at the origin against 5x2 at (2,1), which overlap, and
against 1x1 at (9,9), which does not. -/
theorem Intersection_cases_witness :
    Intersection ⟨⟨0, 0⟩, ⟨4, 4⟩⟩ ⟨⟨9, 9⟩, ⟨1, 1⟩⟩ = ⟨⟨0, 0⟩, ⟨0, 0⟩⟩ ∧
    (Intersection ⟨⟨0, 0⟩, ⟨4, 4⟩⟩ ⟨⟨2, 1⟩, ⟨5, 2⟩⟩).Position = ⟨2, 1⟩ ∧
    End (Intersection ⟨⟨0, 0⟩, ⟨4, 4⟩⟩ ⟨⟨2, 1⟩, ⟨5, 2⟩⟩) = ⟨4, 3⟩ :=
  ⟨(Intersection_cases ⟨⟨0, 0⟩, ⟨4, 4⟩⟩ ⟨⟨9, 9⟩, ⟨1, 1⟩⟩).1 (by decide),
    (Intersection_cases ⟨⟨0, 0⟩, ⟨4, 4⟩⟩ ⟨⟨2, 1⟩, ⟨5, 2⟩⟩).2 (by decide)⟩

/-- C6 as stated fails: the empty rectangle at the origin and the 2x2 rectangle at (-1,-1)
both have non-negative size and no overflow, `Overlaps` is true, and no point belongs to
both, the first one having no point at all. -/
theorem Overlaps_without_common_point :
    (⟨⟨0, 0⟩, ⟨0, 0⟩⟩ : PositionSize).valid ∧ (⟨⟨-1, -1⟩, ⟨2, 2⟩⟩ : PositionSize).valid ∧
    (⟨⟨0, 0⟩, ⟨0, 0⟩⟩ : PositionSize).noOverflow ∧
    (⟨⟨-1, -1⟩, ⟨2, 2⟩⟩ : PositionSize).noOverflow ∧
    (⟨⟨0, 0⟩, ⟨0, 0⟩⟩ : PositionSize).nonNegSize ∧
    (⟨⟨-1, -1⟩, ⟨2, 2⟩⟩ : PositionSize).nonNegSize ∧
    Overlaps ⟨⟨0, 0⟩, ⟨0, 0⟩⟩ ⟨⟨-1, -1⟩, ⟨2, 2⟩⟩ = true ∧
    ¬ ∃ p : XY, HasPoint ⟨⟨0, 0⟩, ⟨0, 0⟩⟩ p = true ∧ HasPoint ⟨⟨-1, -1⟩, ⟨2, 2⟩⟩ p = true := by
  refine ⟨by decide, by decide, by decide, by decide, by decide, by decide, by decide, ?_⟩
  rintro ⟨p, hp, -⟩
  rw [HasPoint_eq_true_iff] at hp
  have hz : wrap32 (0 + 0) = 0 := by decide
  simp only [hz] at hp
  omega

/-- C6, amended: for rectangles of positive width and height, valid and without overflow,
`Overlaps` is true exactly when some point belongs to both. -/
theorem Overlaps_iff_common_point (a b : PositionSize)
    (hva : a.valid) (hvb : b.valid) (hoa : a.noOverflow) (hob : b.noOverflow)
    (haa : HasArea a = true) (hab : HasArea b = true) :
    Overlaps a b = true ↔
      ∃ p : XY, p.valid ∧ HasPoint a p = true ∧ HasPoint b p = true := by
  unfold PositionSize.valid XY.valid at hva hvb
  unfold PositionSize.noOverflow at hoa hob
  have eax := wrap32_of_isInt32 hoa.1
  have eay := wrap32_of_isInt32 hoa.2
  have ebx := wrap32_of_isInt32 hob.1
  have eby := wrap32_of_isInt32 hob.2
  simp only [HasArea, Bool.and_eq_true, decide_eq_true_eq] at haa hab
  unfold isInt32 at hva hvb
  rw [Overlaps_eq_true_iff]
  constructor
  · intro h
    refine ⟨⟨max a.Position.X b.Position.X, max a.Position.Y b.Position.Y⟩, ?_, ?_, ?_⟩
    · unfold XY.valid isInt32
      simp only
      omega
    · rw [HasPoint_eq_true_iff]
      simp only
      omega
    · rw [HasPoint_eq_true_iff]
      simp only
      omega
  · rintro ⟨p, -, hpa, hpb⟩
    rw [HasPoint_eq_true_iff] at hpa hpb
    omega

/-- C6 amended, at a concrete input: 4x4 at the origin and 5x2 at (2,1) overlap and share
a point. -/
theorem Overlaps_iff_common_point_witness :
    Overlaps ⟨⟨0, 0⟩, ⟨4, 4⟩⟩ ⟨⟨2, 1⟩, ⟨5, 2⟩⟩ = true ↔
      ∃ p : XY, p.valid ∧ HasPoint ⟨⟨0, 0⟩, ⟨4, 4⟩⟩ p = true ∧
        HasPoint ⟨⟨2, 1⟩, ⟨5, 2⟩⟩ p = true :=
  Overlaps_iff_common_point ⟨⟨0, 0⟩, ⟨4, 4⟩⟩ ⟨⟨2, 1⟩, ⟨5, 2⟩⟩
    (by decide) (by decide) (by decide) (by decide) (by decide) (by decide)

/-- C7: `Overlaps` excludes the edges: when the right edge of a is the left edge of b, or
the left edge of a the right edge of b, or likewise bottom and top on the Y axis, the
result is false.  The edge sums are those of the code, in 32-bit arithmetic. -/
theorem Overlaps_edges_excluded (a b : PositionSize)
    (h : wrap32 (a.Position.X + a.Size.X) = b.Position.X ∨
      a.Position.X = wrap32 (b.Position.X + b.Size.X) ∨
      wrap32 (a.Position.Y + a.Size.Y) = b.Position.Y ∨
      a.Position.Y = wrap32 (b.Position.Y + b.Size.Y)) :
    Overlaps a b = false := by
  rw [← Bool.not_eq_true, Overlaps_eq_true_iff]
  omega

/-- C7, at a concrete input: 2x2 at the origin and 2x2 at (2,0) share an edge only. -/
theorem Overlaps_edges_excluded_witness :
    wrap32 ((0 : Int) + 2) = 2 ∧ Overlaps ⟨⟨0, 0⟩, ⟨2, 2⟩⟩ ⟨⟨2, 0⟩, ⟨2, 2⟩⟩ = false :=
  ⟨by decide, Overlaps_edges_excluded ⟨⟨0, 0⟩, ⟨2, 2⟩⟩ ⟨⟨2, 0⟩, ⟨2, 2⟩⟩ (Or.inl (by decide))⟩

/-! ## Point membership: `HasPoint` -/

/-- C8: `HasPoint` is the half-open containment test: without overflow of position plus
size, a point is in the rectangle exactly when it is at or after the position and
strictly before position plus size, on both axes. -/
theorem HasPoint_half_open (rect : PositionSize) (p : XY) (h : rect.noOverflow) :
    HasPoint rect p = true ↔
      (rect.Position.X ≤ p.X ∧ p.X < rect.Position.X + rect.Size.X) ∧
      (rect.Position.Y ≤ p.Y ∧ p.Y < rect.Position.Y + rect.Size.Y) := by
  unfold PositionSize.noOverflow at h
  rw [HasPoint_eq_true_iff, wrap32_of_isInt32 h.1, wrap32_of_isInt32 h.2]
  omega

/-- C8, at a concrete input: the point (2,3) and the 3x4 rectangle at (1,2). -/
theorem HasPoint_half_open_witness :
    HasPoint ⟨⟨1, 2⟩, ⟨3, 4⟩⟩ ⟨2, 3⟩ = true ↔
      (((1 : Int) ≤ 2 ∧ (2 : Int) < 1 + 3) ∧ ((2 : Int) ≤ 3 ∧ (3 : Int) < 2 + 4)) :=
  HasPoint_half_open ⟨⟨1, 2⟩, ⟨3, 4⟩⟩ ⟨2, 3⟩ (by decide)

/-- C9: a point whose X is the X of the end, or whose Y is the Y of the end, is not in the
rectangle, whatever the size; in particular the end itself is not. -/
theorem HasPoint_excludes_End (rect : PositionSize) :
    (∀ p : XY, p.X = (End rect).X ∨ p.Y = (End rect).Y → HasPoint rect p = false) ∧
    HasPoint rect (End rect) = false := by
  have key : ∀ p : XY, p.X = (End rect).X ∨ p.Y = (End rect).Y →
      HasPoint rect p = false := by
    intro p hp
    rw [← Bool.not_eq_true, HasPoint_eq_true_iff]
    simp only [End, Vector2i.Add] at hp
    omega
  exact ⟨key, key _ (Or.inl rfl)⟩

/-- C9, at concrete inputs: the right edge of the 3x4 rectangle at (1,2), and the end of a
rectangle of negative size. -/
theorem HasPoint_excludes_End_witness :
    HasPoint ⟨⟨1, 2⟩, ⟨3, 4⟩⟩ ⟨4, 3⟩ = false ∧
    HasPoint ⟨⟨1, 2⟩, ⟨-3, -4⟩⟩ (End ⟨⟨1, 2⟩, ⟨-3, -4⟩⟩) = false :=
  ⟨(HasPoint_excludes_End ⟨⟨1, 2⟩, ⟨3, 4⟩⟩).1 ⟨4, 3⟩ (Or.inl (by decide)),
    (HasPoint_excludes_End ⟨⟨1, 2⟩, ⟨-3, -4⟩⟩).2⟩

/-! ## Normalisation: `Abs` -/

/-- C10: when width and height are `int32` values other than the minimum, the size of
`Abs` is non-negative on both axes and is the componentwise absolute value of the size. -/
theorem Abs_Size (rect : PositionSize) (hv : rect.Size.valid)
    (hx : rect.Size.X ≠ -2147483648) (hy : rect.Size.Y ≠ -2147483648) :
    (Abs rect).Size.X ≥ 0 ∧ (Abs rect).Size.Y ≥ 0 ∧
    (Abs rect).Size = ⟨|rect.Size.X|, |rect.Size.Y|⟩ := by
  unfold XY.valid isInt32 at hv
  have ex : absInt32 rect.Size.X = |rect.Size.X| := by
    unfold absInt32
    split_ifs with h
    · rw [abs_of_neg h]
      apply wrap32_of_isInt32
      unfold isInt32
      omega
    · rw [abs_of_nonneg (by omega)]
  have ey : absInt32 rect.Size.Y = |rect.Size.Y| := by
    unfold absInt32
    split_ifs with h
    · rw [abs_of_neg h]
      apply wrap32_of_isInt32
      unfold isInt32
      omega
    · rw [abs_of_nonneg (by omega)]
  refine ⟨?_, ?_, ?_⟩
  · show absInt32 rect.Size.X ≥ 0
    rw [ex]
    exact abs_nonneg _
  · show absInt32 rect.Size.Y ≥ 0
    rw [ey]
    exact abs_nonneg _
  · show (⟨absInt32 rect.Size.X, absInt32 rect.Size.Y⟩ : XY) = _
    rw [ex, ey]

/-- C10, at a concrete input: the rectangle at (5,5) of size (-3,4). -/
theorem Abs_Size_witness :
    (Abs ⟨⟨5, 5⟩, ⟨-3, 4⟩⟩).Size.X ≥ 0 ∧ (Abs ⟨⟨5, 5⟩, ⟨-3, 4⟩⟩).Size.Y ≥ 0 ∧
    (Abs ⟨⟨5, 5⟩, ⟨-3, 4⟩⟩).Size = ⟨|(-3 : Int)|, |(4 : Int)|⟩ :=
  Abs_Size ⟨⟨5, 5⟩, ⟨-3, 4⟩⟩ (by decide) (by decide) (by decide)

/-- C11: for a valid rectangle without overflow, the position of `Abs` is the
componentwise minimum of the position and the end, and the end of `Abs` is their
componentwise maximum: both rectangles span the same two corners. -/
theorem Abs_corners (rect : PositionSize) (hv : rect.valid) (ho : rect.noOverflow) :
    (Abs rect).Position =
      ⟨min rect.Position.X (End rect).X, min rect.Position.Y (End rect).Y⟩ ∧
    End (Abs rect) = ⟨max rect.Position.X (End rect).X, max rect.Position.Y (End rect).Y⟩ := by
  unfold PositionSize.valid XY.valid isInt32 at hv
  unfold PositionSize.noOverflow isInt32 at ho
  simp only [Abs, End, Vector2i.Add, Vector2i.Mini, Vector2i.Abs, absInt32, XY.mk.injEq]
  refine ⟨⟨?_, ?_⟩, ?_, ?_⟩
  · unfold wrap32
    omega
  · unfold wrap32
    omega
  · split_ifs <;> unfold wrap32 <;> omega
  · split_ifs <;> unfold wrap32 <;> omega

/-- C11, at a concrete input: the rectangle at (5,5) of size (-3,4) spans (2,5) to (5,9). -/
theorem Abs_corners_witness :
    (Abs ⟨⟨5, 5⟩, ⟨-3, 4⟩⟩).Position =
      ⟨min 5 (End ⟨⟨5, 5⟩, ⟨-3, 4⟩⟩).X, min 5 (End ⟨⟨5, 5⟩, ⟨-3, 4⟩⟩).Y⟩ ∧
    End (Abs ⟨⟨5, 5⟩, ⟨-3, 4⟩⟩) =
      ⟨max 5 (End ⟨⟨5, 5⟩, ⟨-3, 4⟩⟩).X, max 5 (End ⟨⟨5, 5⟩, ⟨-3, 4⟩⟩).Y⟩ :=
  Abs_corners ⟨⟨5, 5⟩, ⟨-3, 4⟩⟩ (by decide) (by decide)

/-! ## Expansion -/

/-- C12: `ExpandTo` reaches the point only if necessary.  For a valid point, the position
of the result is the componentwise minimum of the position and the point, and its end
the componentwise maximum of the end and the point; and when the rectangle is valid, of
non-negative size, and the point lies within its closed bounds, the result is the
rectangle itself. -/
theorem ExpandTo_spec (point : XY) (rect : PositionSize) (hp : point.valid) :
    (ExpandTo point rect).Position =
      ⟨min rect.Position.X point.X, min rect.Position.Y point.Y⟩ ∧
    End (ExpandTo point rect) = ⟨max (End rect).X point.X, max (End rect).Y point.Y⟩ ∧
    (rect.valid → rect.nonNegSize → closedBounds rect point → ExpandTo point rect = rect) := by
  unfold XY.valid isInt32 at hp
  have hex := isInt32_wrap32 (rect.Position.X + rect.Size.X)
  have hey := isInt32_wrap32 (rect.Position.Y + rect.Size.Y)
  unfold isInt32 at hex hey
  refine ⟨?_, ?_, ?_⟩
  · simp only [ExpandTo, XY.mk.injEq]
    constructor <;> split_ifs <;> omega
  · simp only [ExpandTo, End, Vector2i.Add, Vector2i.Sub, wrap32_add_wrap32_sub, XY.mk.injEq]
    constructor
    · split_ifs
      · rw [wrap32_of_isInt32 (by unfold isInt32; omega)]
        omega
      · rw [wrap32_wrap32]
        omega
    · split_ifs
      · rw [wrap32_of_isInt32 (by unfold isInt32; omega)]
        omega
      · rw [wrap32_wrap32]
        omega
  · intro hv _ hc
    unfold PositionSize.valid XY.valid isInt32 at hv
    simp only [closedBounds, End, Vector2i.Add] at hc
    obtain ⟨⟨px, py⟩, ⟨sx, sy⟩⟩ := rect
    simp only [ExpandTo, Vector2i.Add, Vector2i.Sub, PositionSize.mk.injEq, XY.mk.injEq]
    simp only at hv hc hex hey
    have h1 : ¬ point.X < px := by omega
    have h2 : ¬ point.Y < py := by omega
    have h3 : ¬ point.X > wrap32 (px + sx) := by omega
    have h4 : ¬ point.Y > wrap32 (py + sy) := by omega
    simp only [h1, h2, h3, h4, if_false, true_and]
    constructor
    · unfold wrap32
      omega
    · unfold wrap32
      omega

/-- C12, at concrete inputs: the point (10,-3) stretches the 3x4 rectangle at (1,2), the
point (2,3) leaves it as it is. -/
theorem ExpandTo_spec_witness :
    (ExpandTo ⟨10, -3⟩ ⟨⟨1, 2⟩, ⟨3, 4⟩⟩).Position = ⟨min 1 10, min 2 (-3)⟩ ∧
    End (ExpandTo ⟨10, -3⟩ ⟨⟨1, 2⟩, ⟨3, 4⟩⟩) =
      ⟨max (End ⟨⟨1, 2⟩, ⟨3, 4⟩⟩).X 10, max (End ⟨⟨1, 2⟩, ⟨3, 4⟩⟩).Y (-3)⟩ ∧
    ExpandTo ⟨2, 3⟩ ⟨⟨1, 2⟩, ⟨3, 4⟩⟩ = ⟨⟨1, 2⟩, ⟨3, 4⟩⟩ :=
  ⟨(ExpandTo_spec ⟨10, -3⟩ ⟨⟨1, 2⟩, ⟨3, 4⟩⟩ (by decide)).1,
    (ExpandTo_spec ⟨10, -3⟩ ⟨⟨1, 2⟩, ⟨3, 4⟩⟩ (by decide)).2.1,
    (ExpandTo_spec ⟨2, 3⟩ ⟨⟨1, 2⟩, ⟨3, 4⟩⟩ (by decide)).2.2
      (by decide) (by decide) (by decide)⟩

/-- C13 as stated fails for a narrow amount type: with `X = int8`, the 3x4 rectangle at
(1,2) and the amount 64, a value of `int8`, `amount*2` is -128 in `int8`, the result is
at (-63,-62) with size (-125,-124), and its end (-188,-186) is not the end of the
rectangle plus 64, which is (68,70). -/
theorem Expand_int8_end :
    wrapSigned 8 64 = 64 ∧ wrapSigned 8 (64 * 2) = -128 ∧
    Expand (wrapSigned 8) ⟨⟨1, 2⟩, ⟨3, 4⟩⟩ 64 = ⟨⟨-63, -62⟩, ⟨-125, -124⟩⟩ ∧
    End (Expand (wrapSigned 8) ⟨⟨1, 2⟩, ⟨3, 4⟩⟩ 64) = ⟨-188, -186⟩ ∧
    (⟨wrap32 ((End ⟨⟨1, 2⟩, ⟨3, 4⟩⟩).X + 64), wrap32 ((End ⟨⟨1, 2⟩, ⟨3, 4⟩⟩).Y + 64)⟩ : XY) =
      ⟨68, 70⟩ ∧
    End (Expand (wrapSigned 8) ⟨⟨1, 2⟩, ⟨3, 4⟩⟩ 64) ≠
      ⟨wrap32 ((End ⟨⟨1, 2⟩, ⟨3, 4⟩⟩).X + 64), wrap32 ((End ⟨⟨1, 2⟩, ⟨3, 4⟩⟩).Y + 64)⟩ := by
  decide

/-- C13, amended: `Expand` extends the rectangle on all sides by the amount, in arithmetic
modulo 2^32, whenever `amount*2`, computed in the amount's own type, is twice the amount
modulo 2^32: the position is the old position minus the amount on both axes and the end
is the old end plus the amount on both axes, for a negative amount as for a positive
one. -/
theorem Expand_spec (wrapX : Int → Int) (rect : PositionSize) (amount : Int)
    (h2 : wrap32 (wrapX (amount * 2)) = wrap32 (amount * 2)) :
    (Expand wrapX rect amount).Position =
      ⟨wrap32 (rect.Position.X - amount), wrap32 (rect.Position.Y - amount)⟩ ∧
    End (Expand wrapX rect amount) =
      ⟨wrap32 ((End rect).X + amount), wrap32 ((End rect).Y + amount)⟩ := by
  refine ⟨rfl, ?_⟩
  simp only [Expand, End, Vector2i.Add, Vector2i.SubX, Vector2i.AddX, XY.mk.injEq]
  unfold wrap32 at *
  constructor <;> omega

/-- C13 amended, at concrete inputs: the 3x4 rectangle at (1,2), grown by 5 with an
`int32` amount, shrunk by 1 with an `int64` amount, and grown by 10 with an `int8`
amount, whose double fits in `int8`. -/
theorem Expand_spec_witness :
    ((Expand wrap32 ⟨⟨1, 2⟩, ⟨3, 4⟩⟩ 5).Position = ⟨wrap32 (1 - 5), wrap32 (2 - 5)⟩ ∧
      End (Expand wrap32 ⟨⟨1, 2⟩, ⟨3, 4⟩⟩ 5) =
        ⟨wrap32 ((End ⟨⟨1, 2⟩, ⟨3, 4⟩⟩).X + 5), wrap32 ((End ⟨⟨1, 2⟩, ⟨3, 4⟩⟩).Y + 5)⟩) ∧
    ((Expand (wrapSigned 64) ⟨⟨1, 2⟩, ⟨3, 4⟩⟩ (-1)).Position =
        ⟨wrap32 (1 - -1), wrap32 (2 - -1)⟩ ∧
      End (Expand (wrapSigned 64) ⟨⟨1, 2⟩, ⟨3, 4⟩⟩ (-1)) =
        ⟨wrap32 ((End ⟨⟨1, 2⟩, ⟨3, 4⟩⟩).X + -1), wrap32 ((End ⟨⟨1, 2⟩, ⟨3, 4⟩⟩).Y + -1)⟩) ∧
    ((Expand (wrapSigned 8) ⟨⟨1, 2⟩, ⟨3, 4⟩⟩ 10).Position =
        ⟨wrap32 (1 - 10), wrap32 (2 - 10)⟩ ∧
      End (Expand (wrapSigned 8) ⟨⟨1, 2⟩, ⟨3, 4⟩⟩ 10) =
        ⟨wrap32 ((End ⟨⟨1, 2⟩, ⟨3, 4⟩⟩).X + 10), wrap32 ((End ⟨⟨1, 2⟩, ⟨3, 4⟩⟩).Y + 10)⟩) :=
  ⟨Expand_spec wrap32 ⟨⟨1, 2⟩, ⟨3, 4⟩⟩ 5 (agreesMod32_wrap32 _),
    Expand_spec (wrapSigned 64) ⟨⟨1, 2⟩, ⟨3, 4⟩⟩ (-1) (agreesMod32_wrapSigned_64 _),
    Expand_spec (wrapSigned 8) ⟨⟨1, 2⟩, ⟨3, 4⟩⟩ 10 (by decide)⟩

/-- C14 as stated fails for a narrow amount type: with `X = int8`, the 3x4 rectangle at
(1,2) and the amounts 100, 0, 100, 0, values of `int8`, `left + right` is -56 in `int8`,
the result is at (-99,2) with size (-53,4), and the X of its end, -152, is not the X of
the end of the rectangle plus 100, which is 104. -/
theorem ExpandSides_int8_end :
    wrapSigned 8 100 = 100 ∧ wrapSigned 8 0 = 0 ∧ wrapSigned 8 (100 + 100) = -56 ∧
    ExpandSides (wrapSigned 8) ⟨⟨1, 2⟩, ⟨3, 4⟩⟩ 100 0 100 0 = ⟨⟨-99, 2⟩, ⟨-53, 4⟩⟩ ∧
    End (ExpandSides (wrapSigned 8) ⟨⟨1, 2⟩, ⟨3, 4⟩⟩ 100 0 100 0) = ⟨-152, 6⟩ ∧
    (⟨wrap32 ((End ⟨⟨1, 2⟩, ⟨3, 4⟩⟩).X + 100), wrap32 ((End ⟨⟨1, 2⟩, ⟨3, 4⟩⟩).Y + 0)⟩ : XY) =
      ⟨104, 6⟩ ∧
    End (ExpandSides (wrapSigned 8) ⟨⟨1, 2⟩, ⟨3, 4⟩⟩ 100 0 100 0) ≠
      ⟨wrap32 ((End ⟨⟨1, 2⟩, ⟨3, 4⟩⟩).X + 100), wrap32 ((End ⟨⟨1, 2⟩, ⟨3, 4⟩⟩).Y + 0)⟩ := by
  decide

/-- C14, amended: `ExpandSides` moves each side outward by its own amount, in arithmetic
modulo 2^32, whenever `left + right` and `top + bottom`, computed in the amounts' own
type, are those sums modulo 2^32: the position is (X - left, Y - top) and the end is
(end X + right, end Y + bottom). -/
theorem ExpandSides_spec (wrapX : Int → Int) (rect : PositionSize)
    (left top right bottom : Int)
    (hx : wrap32 (wrapX (left + right)) = wrap32 (left + right))
    (hy : wrap32 (wrapX (top + bottom)) = wrap32 (top + bottom)) :
    (ExpandSides wrapX rect left top right bottom).Position =
      ⟨wrap32 (rect.Position.X - left), wrap32 (rect.Position.Y - top)⟩ ∧
    End (ExpandSides wrapX rect left top right bottom) =
      ⟨wrap32 ((End rect).X + right), wrap32 ((End rect).Y + bottom)⟩ := by
  simp only [ExpandSides, End, Vector2i.Add, XY.mk.injEq]
  unfold wrap32 at *
  refine ⟨⟨?_, ?_⟩, ?_, ?_⟩ <;> omega

/-- C14 amended, at concrete inputs: the 3x4 rectangle at (1,2) with the amounts 1, 2, 3,
4 as `int32`, and with the amounts 100, 0, 20, -5 as `int8`, whose sums fit in `int8`. -/
theorem ExpandSides_spec_witness :
    ((ExpandSides wrap32 ⟨⟨1, 2⟩, ⟨3, 4⟩⟩ 1 2 3 4).Position =
        ⟨wrap32 (1 - 1), wrap32 (2 - 2)⟩ ∧
      End (ExpandSides wrap32 ⟨⟨1, 2⟩, ⟨3, 4⟩⟩ 1 2 3 4) =
        ⟨wrap32 ((End ⟨⟨1, 2⟩, ⟨3, 4⟩⟩).X + 3), wrap32 ((End ⟨⟨1, 2⟩, ⟨3, 4⟩⟩).Y + 4)⟩) ∧
    ((ExpandSides (wrapSigned 8) ⟨⟨1, 2⟩, ⟨3, 4⟩⟩ 100 0 20 (-5)).Position =
        ⟨wrap32 (1 - 100), wrap32 (2 - 0)⟩ ∧
      End (ExpandSides (wrapSigned 8) ⟨⟨1, 2⟩, ⟨3, 4⟩⟩ 100 0 20 (-5)) =
        ⟨wrap32 ((End ⟨⟨1, 2⟩, ⟨3, 4⟩⟩).X + 20),
          wrap32 ((End ⟨⟨1, 2⟩, ⟨3, 4⟩⟩).Y + -5)⟩) :=
  ⟨ExpandSides_spec wrap32 ⟨⟨1, 2⟩, ⟨3, 4⟩⟩ 1 2 3 4
      (agreesMod32_wrap32 _) (agreesMod32_wrap32 _),
    ExpandSides_spec (wrapSigned 8) ⟨⟨1, 2⟩, ⟨3, 4⟩⟩ 100 0 20 (-5) (by decide) (by decide)⟩

/-- C15: `ExpandSide` extends only the named side.  For a valid rectangle and an amount
that is a value of its integer type, the result for each of the four sides (0, 1, 2, 3)
is that of `ExpandSides` with the amount in that side's argument and 0 in the other
three; and the three other edges, among position X, position Y, end X and end Y, are
those of the rectangle. -/
theorem ExpandSide_eq_ExpandSides (wrapX : Int → Int) (rect : PositionSize) (amount : Int)
    (hv : rect.valid) (ha : wrapX amount = amount) (h0 : wrapX 0 = 0) :
    (SideLeft = 0 ∧ SideTop = 1 ∧ SideRight = 2 ∧ SideBottom = 3) ∧
    (ExpandSide rect SideLeft amount = ExpandSides wrapX rect amount 0 0 0 ∧
      ExpandSide rect SideTop amount = ExpandSides wrapX rect 0 amount 0 0 ∧
      ExpandSide rect SideRight amount = ExpandSides wrapX rect 0 0 amount 0 ∧
      ExpandSide rect SideBottom amount = ExpandSides wrapX rect 0 0 0 amount) ∧
    ((ExpandSide rect SideLeft amount).Position.Y = rect.Position.Y ∧
      End (ExpandSide rect SideLeft amount) = End rect) ∧
    ((ExpandSide rect SideTop amount).Position.X = rect.Position.X ∧
      End (ExpandSide rect SideTop amount) = End rect) ∧
    ((ExpandSide rect SideRight amount).Position = rect.Position ∧
      (End (ExpandSide rect SideRight amount)).Y = (End rect).Y) ∧
    ((ExpandSide rect SideBottom amount).Position = rect.Position ∧
      (End (ExpandSide rect SideBottom amount)).X = (End rect).X) := by
  obtain ⟨⟨px, py⟩, ⟨sx, sy⟩⟩ := rect
  unfold PositionSize.valid XY.valid at hv
  simp only at hv
  obtain ⟨⟨hpx, hpy⟩, hsx, hsy⟩ := hv
  have epx := wrap32_of_isInt32 hpx
  have epy := wrap32_of_isInt32 hpy
  have esx := wrap32_of_isInt32 hsx
  have esy := wrap32_of_isInt32 hsy
  refine ⟨⟨rfl, rfl, rfl, rfl⟩, ⟨?_, ?_, ?_, ?_⟩, ⟨?_, ?_⟩, ⟨?_, ?_⟩, ⟨?_, ?_⟩, ?_, ?_⟩
  · simp [ExpandSide, ExpandSides, SideLeft, ha, h0, wrap32_zero, epy, esy]
  · simp [ExpandSide, ExpandSides, SideLeft, SideTop, ha, h0, wrap32_zero, epx, esx]
  · simp [ExpandSide, ExpandSides, SideLeft, SideTop, SideRight, ha, h0, wrap32_zero,
      epx, epy, esy]
  · simp [ExpandSide, ExpandSides, SideLeft, SideTop, SideRight, SideBottom, ha, h0,
      wrap32_zero, epx, epy, esx]
  · simp [ExpandSide, SideLeft]
  · simp only [ExpandSide, SideLeft, if_true, End, Vector2i.Add, XY.mk.injEq, and_true]
    unfold wrap32
    omega
  · simp [ExpandSide, SideLeft, SideTop]
  · simp only [ExpandSide, SideLeft, SideTop, one_ne_zero, if_false, if_true, End,
      Vector2i.Add, XY.mk.injEq, true_and]
    unfold wrap32
    omega
  · simp [ExpandSide, SideLeft, SideTop, SideRight]
  · simp [ExpandSide, SideLeft, SideTop, SideRight, End, Vector2i.Add]
  · simp [ExpandSide, SideLeft, SideTop, SideRight, SideBottom]
  · simp [ExpandSide, SideLeft, SideTop, SideRight, SideBottom, End, Vector2i.Add]

/-- C15, at a concrete input: the 3x4 rectangle at (1,2) and the `int32` amount 5. -/
theorem ExpandSide_eq_ExpandSides_witness :
    ExpandSide ⟨⟨1, 2⟩, ⟨3, 4⟩⟩ SideTop 5 = ExpandSides wrap32 ⟨⟨1, 2⟩, ⟨3, 4⟩⟩ 0 5 0 0 ∧
    End (ExpandSide ⟨⟨1, 2⟩, ⟨3, 4⟩⟩ SideTop 5) = End ⟨⟨1, 2⟩, ⟨3, 4⟩⟩ :=
  ⟨(ExpandSide_eq_ExpandSides wrap32 ⟨⟨1, 2⟩, ⟨3, 4⟩⟩ 5
      (by decide) (by decide) (by decide)).2.1.2.1,
    (ExpandSide_eq_ExpandSides wrap32 ⟨⟨1, 2⟩, ⟨3, 4⟩⟩ 5
      (by decide) (by decide) (by decide)).2.2.2.1.2⟩

/-! ## The end point -/

/-- C16: `End` is position plus size in 32-bit arithmetic: each coordinate is an `int32`
value, is the wrapped sum of position and size, differs from the exact sum by a multiple
of 2^32, and is the exact sum when that does not overflow. -/
theorem End_eq_Position_add_Size (rect : PositionSize) :
    End rect =
      ⟨wrap32 (rect.Position.X + rect.Size.X), wrap32 (rect.Position.Y + rect.Size.Y)⟩ ∧
    (End rect).valid ∧
    (4294967296 : Int) ∣ (End rect).X - (rect.Position.X + rect.Size.X) ∧
    (4294967296 : Int) ∣ (End rect).Y - (rect.Position.Y + rect.Size.Y) ∧
    (rect.noOverflow →
      End rect = ⟨rect.Position.X + rect.Size.X, rect.Position.Y + rect.Size.Y⟩) := by
  refine ⟨rfl, ⟨isInt32_wrap32 _, isInt32_wrap32 _⟩, ?_, ?_, ?_⟩
  · simp only [End, Vector2i.Add, wrap32]
    omega
  · simp only [End, Vector2i.Add, wrap32]
    omega
  · intro h
    simp only [End, Vector2i.Add, wrap32_of_isInt32 h.1, wrap32_of_isInt32 h.2]

/-- C16, at concrete inputs: the end of the 3x4 rectangle at (1,2) is (4,6), and the end
of the 1x1 rectangle at the largest position wraps to the smallest. -/
theorem End_eq_Position_add_Size_witness :
    End ⟨⟨1, 2⟩, ⟨3, 4⟩⟩ = ⟨1 + 3, 2 + 4⟩ ∧
    End ⟨⟨2147483647, 2147483647⟩, ⟨1, 1⟩⟩ =
      ⟨wrap32 (2147483647 + 1), wrap32 (2147483647 + 1)⟩ :=
  ⟨(End_eq_Position_add_Size ⟨⟨1, 2⟩, ⟨3, 4⟩⟩).2.2.2.2 (by decide),
    (End_eq_Position_add_Size ⟨⟨2147483647, 2147483647⟩, ⟨1, 1⟩⟩).1⟩

end Rect2i

namespace EditorSceneFormatImporter

/-! ## The `PropertyHint` constants -/

/-- C17: `PropertyHintMax` is not the size of the `PropertyHint` enum as the package
declares it.  The constant is 42, the other `PropertyHint` constants number 41 and none
of them is 41; whereas in the `VariantType` enum of the same file, whose `TypeMax`
carries the same comment, `TypeMax` is 39 and the other constants number 39. -/
theorem PropertyHintMax_not_enum_size :
    PropertyHintMax = 42 ∧ PropertyHint_others.length = 41 ∧
    PropertyHintMax ≠ PropertyHint_others.length ∧
    (41 : Int) ∉ PropertyHint_others ∧
    TypeMax = 39 ∧ VariantType_others.length = 39 ∧
    TypeMax = VariantType_others.length := by
  decide

/-- The parts of the claim that hold of the `PropertyHint` constants: the constants other
than `PropertyHintMax` take pairwise distinct values, exactly the values 0 to 40, and
every one of them is smaller than `PropertyHintMax`. -/
theorem PropertyHint_others_distinct_bounded :
    PropertyHint_others.Nodup ∧
    (∀ v ∈ PropertyHint_others, v < PropertyHintMax) ∧
    (∀ v : Int, v ∈ PropertyHint_others ↔ 0 ≤ v ∧ v ≤ 40) := by
  refine ⟨by decide, by decide, ?_⟩
  intro v
  constructor
  · intro h
    revert v
    decide
  · rintro ⟨h0, h40⟩
    have hv : v.toNat < 41 := by omega
    have key : ∀ n : Nat, n < 41 → (n : Int) ∈ PropertyHint_others := by decide
    have := key v.toNat hv
    rwa [Int.toNat_of_nonneg h0] at this

end EditorSceneFormatImporter

namespace Generate

/-! ## The dispatch tables written by the generator -/

theorem caseLines_append (l₁ l₂ : List Emit) :
    caseLines (l₁ ++ l₂) = caseLines l₁ ++ caseLines l₂ := by
  induction l₁ with
  | nil => rfl
  | cons e rest ih => cases e <;> simp [caseLines, ih]

theorem caseLines_emitCases (methods : List Method) :
    caseLines (emitCases methods) =
      (methods.filter (fun m => m.IsVirtual)).map (fun m => (m.Name, m.Name)) := by
  induction methods with
  | nil => rfl
  | cons m rest ih =>
    by_cases h : m.IsVirtual = true
    · simp [emitCases, caseLines, h, ih]
    · simp [emitCases, h, ih]

theorem switchCase_append (name : String) (l₁ l₂ : List Emit) :
    switchCase name (l₁ ++ l₂) =
      match switchCase name l₁ with
      | some v => some v
      | none => switchCase name l₂ := by
  induction l₁ with
  | nil => rfl
  | cons e rest ih =>
    rw [List.cons_append]
    cases e with
    | caseReturn key method =>
      by_cases h : key = name
      · simp [switchCase, h]
      · simp [switchCase, h, ih]
    | funcVirtual self => simpa [switchCase] using ih
    | switchName => simpa [switchCase] using ih
    | defaultVirtualByName super kind => simpa [switchCase] using ih
    | defaultZero => simpa [switchCase] using ih
    | closeSwitch => simpa [switchCase] using ih
    | closeFunc => simpa [switchCase] using ih

theorem switchCase_emitCases (name : String) (methods : List Method) :
    switchCase name (emitCases methods) =
      if name ∈ (methods.filter (fun m => m.IsVirtual)).map (fun m => m.Name) then
        some (.ofMethod name)
      else none := by
  induction methods with
  | nil => rfl
  | cons m rest ih =>
    by_cases h : m.IsVirtual = true
    · have hl : List.filter (fun m => m.IsVirtual) (m :: rest) =
          m :: List.filter (fun m => m.IsVirtual) rest := by
        simp [List.filter_cons, h]
      by_cases hn : m.Name = name
      · have hmem : name ∈ (List.filter (fun m => m.IsVirtual) (m :: rest)).map
            (fun m => m.Name) := by
          rw [hl]
          simp [hn]
        rw [if_pos hmem]
        simp [emitCases, switchCase, h, hn]
      · have hmem : name ∈ (List.filter (fun m => m.IsVirtual) (m :: rest)).map
            (fun m => m.Name) ↔
            name ∈ (List.filter (fun m => m.IsVirtual) rest).map (fun m => m.Name) := by
          rw [hl, List.map_cons, List.mem_cons]
          constructor
          · rintro (e | e)
            · exact absurd e.symm hn
            · exact e
          · exact fun e => Or.inr e
        have hs : switchCase name (emitCases (m :: rest)) =
            switchCase name (emitCases rest) := by
          simp [emitCases, switchCase, h, hn]
        rw [hs, ih]
        exact if_congr hmem.symm rfl rfl
    · have hl : List.filter (fun m => m.IsVirtual) (m :: rest) =
          List.filter (fun m => m.IsVirtual) rest := by
        simp [List.filter_cons, h]
      have hs : emitCases (m :: rest) = emitCases rest := by
        simp [emitCases, h]
      rw [hs, ih, hl]

theorem switchDefault_emitCases_append (methods : List Method) (l : List Emit) :
    switchDefault (emitCases methods ++ l) = switchDefault l := by
  induction methods with
  | nil => rfl
  | cons m rest ih =>
    by_cases h : m.IsVirtual = true
    · simp [emitCases, switchDefault, h, ih]
    · simp [emitCases, h, ih]

theorem emitVirtual_eq (classDB : ClassDB) (cls : Class) (self : String) :
    emitVirtual classDB cls self =
      .funcVirtual self :: .switchName ::
        (emitCases cls.Methods ++ [emitDefault classDB cls self, .closeSwitch, .closeFunc]) :=
  rfl

theorem switchCase_emitDefault (classDB : ClassDB) (cls : Class) (self name : String) :
    switchCase name [emitDefault classDB cls self, .closeSwitch, .closeFunc] = none := by
  unfold emitDefault
  split_ifs <;> simp [switchCase]

theorem switchDefault_emitDefault (classDB : ClassDB) (cls : Class) (self : String)
    (l : List Emit) :
    switchDefault (emitDefault classDB cls self :: l) =
      some (if cls.Inherits ≠ "" ∧ (directParent classDB cls).IsSingleton = false then
        .virtualByName (directParent classDB cls).Name
          (if self = "Instance" then "Instance" else "Advanced")
      else .zero) := by
  unfold emitDefault directParent
  by_cases h1 : cls.Inherits = ""
  · simp [h1, switchDefault]
  · by_cases h2 : (classDB.get cls.Inherits).IsSingleton = true
    · simp [h1, h2, switchDefault]
    · by_cases h3 : self = "Instance"
      · simp [h1, h2, h3, switchDefault]
      · simp [h1, h2, h3, switchDefault]

theorem callVirtual_emitVirtual (classDB : ClassDB) (cls : Class) (self : String)
    (name : String) :
    callVirtual (emitVirtual classDB cls self) name =
      some (if name ∈ (virtualMethods cls).map (fun m => m.Name) then .ofMethod name
      else if cls.Inherits ≠ "" ∧ (directParent classDB cls).IsSingleton = false then
        .virtualByName (directParent classDB cls).Name
          (if self = "Instance" then "Instance" else "Advanced")
      else .zero) := by
  have hc : switchCase name (emitVirtual classDB cls self) =
      switchCase name (emitCases cls.Methods) := by
    rw [emitVirtual_eq]
    show switchCase name (emitCases cls.Methods ++ _) = _
    rw [switchCase_append, switchCase_emitDefault]
    cases switchCase name (emitCases cls.Methods) <;> rfl
  have hd : switchDefault (emitVirtual classDB cls self) =
      switchDefault [emitDefault classDB cls self, .closeSwitch, .closeFunc] := by
    rw [emitVirtual_eq]
    show switchDefault (emitCases cls.Methods ++ _) = _
    rw [switchDefault_emitCases_append]
  unfold callVirtual
  rw [hc, hd, switchDefault_emitDefault, switchCase_emitCases]
  unfold virtualMethods
  split_ifs <;> rfl

theorem generateVirtual_eq (classDB : ClassDB) (cls : Class) (singleton : Bool) :
    generateVirtual classDB cls singleton =
      emitVirtual classDB cls "class" ++
        (if singleton = true then [] else emitVirtual classDB cls "Instance") := by
  cases singleton <;> simp [generateVirtual]

theorem map_text_emitCases (methods : List Method) :
    (emitCases methods).map Emit.text =
      (methods.filter (fun m => m.IsVirtual)).map specCaseText := by
  induction methods with
  | nil => rfl
  | cons m rest ih =>
    by_cases h : m.IsVirtual = true
    · simp [emitCases, List.filter_cons, h, ih, Emit.text, specCaseText]
    · simp [emitCases, List.filter_cons, h, ih]

theorem text_emitDefault (classDB : ClassDB) (cls : Class) (self : String) :
    (emitDefault classDB cls self).text =
      specDefaultText classDB cls (if self = "Instance" then "Instance" else "Advanced") := by
  unfold emitDefault specDefaultText directParent
  by_cases h1 : cls.Inherits = ""
  · simp [h1, Emit.text]
  · by_cases h2 : (classDB.get cls.Inherits).IsSingleton = true
    · simp [h1, h2, Emit.text]
    · by_cases h3 : self = "Instance"
      · simp [h1, h2, h3, Emit.text]
      · simp [h1, h2, h3, Emit.text]

theorem map_text_emitVirtual (classDB : ClassDB) (cls : Class) (self : String) :
    (emitVirtual classDB cls self).map Emit.text =
      specFuncLines classDB cls self (if self = "Instance" then "Instance" else "Advanced") := by
  rw [emitVirtual_eq]
  simp only [List.map_cons, List.map_append, List.map_nil, map_text_emitCases,
    text_emitDefault]
  rfl

/-- C18: the dispatch tables `generateObjectPackage` writes.  For every class, the text
written is a `Virtual` function for the receiver `class` and, unless the class is a
singleton, one for the receiver `Instance`, each with exactly one `case` per virtual
method of the class, keyed by the engine method name and returning the value of that
method, and a `default` that hands the name to the direct parent (by its `Advanced` or
`Instance` kind) when the class inherits from a class that is not a singleton and
returns the zero value otherwise; and called with a name, each function returns the
method of that name when the class has such a virtual method, and otherwise what its
`default` says. -/
theorem Virtual_dispatch_table (classDB : ClassDB) (cls : Class) (singleton : Bool) :
    generateVirtualText classDB cls singleton = specVirtualText classDB cls singleton ∧
    (generateVirtual classDB cls singleton).map Emit.text =
      specFuncLines classDB cls "class" "Advanced" ++
        (if singleton = true then [] else specFuncLines classDB cls "Instance" "Instance") ∧
    (∀ self : String, caseLines (emitVirtual classDB cls self) =
      (virtualMethods cls).map (fun m => (m.Name, m.Name))) ∧
    (∀ name : String, callVirtual (emitVirtual classDB cls "class") name =
      some (specVirtual classDB cls "Advanced" name)) ∧
    (∀ name : String, callVirtual (emitVirtual classDB cls "Instance") name =
      some (specVirtual classDB cls "Instance" name)) := by
  have hlines : (generateVirtual classDB cls singleton).map Emit.text =
      specFuncLines classDB cls "class" "Advanced" ++
        (if singleton = true then [] else specFuncLines classDB cls "Instance" "Instance") := by
    rw [generateVirtual_eq, List.map_append, map_text_emitVirtual]
    cases singleton
    · simp [map_text_emitVirtual]
    · simp
  refine ⟨?_, hlines, ?_, ?_, ?_⟩
  · unfold generateVirtualText specVirtualText
    rw [hlines]
  · intro self
    rw [emitVirtual_eq]
    show caseLines (emitCases cls.Methods ++ _) = _
    rw [caseLines_append, caseLines_emitCases]
    have hd : caseLines [emitDefault classDB cls self, .closeSwitch, .closeFunc] = [] := by
      unfold emitDefault
      split_ifs <;> rfl
    rw [hd, List.append_nil]
    rfl
  · intro name
    rw [callVirtual_emitVirtual]
    unfold specVirtual
    simp
  · intro name
    rw [callVirtual_emitVirtual]
    unfold specVirtual
    simp

set_option maxRecDepth 100000 in
/-- C18, at the two classes of the claim: with the descriptions of
`EditorSceneFormatImporter` and `TextureCubemapArrayRD`, the text written for the second
is that of its `class.go` before formatting, and what the written functions return is
what the `Virtual` functions of the two generated packages return, for both receivers:
the first handles its four virtual methods and hands every other name to `RefCounted`,
the second hands every name to `TextureLayeredRD`. -/
theorem Virtual_dispatch_table_witness :
    generateVirtualText exampleClassDB classTextureCubemapArrayRD false =
      "\nfunc (self class) Virtual(name string) reflect.Value \x7b\n\tswitch name \x7b\n\tdefault: return gd.VirtualByName(TextureLayeredRD.Advanced(self.AsTextureLayeredRD()), name)\n\t\x7d\n\x7d\n\nfunc (self Instance) Virtual(name string) reflect.Value \x7b\n\tswitch name \x7b\n\tdefault: return gd.VirtualByName(TextureLayeredRD.Instance(self.AsTextureLayeredRD()), name)\n\t\x7d\n\x7d\n" ∧
    (∀ name : String,
      callVirtual (emitVirtual exampleClassDB classEditorSceneFormatImporter "class") name =
        some (EditorSceneFormatImporter.Advanced.Virtual name)) ∧
    (∀ name : String,
      callVirtual (emitVirtual exampleClassDB classEditorSceneFormatImporter "Instance") name =
        some (EditorSceneFormatImporter.Instance.Virtual name)) ∧
    (∀ name : String,
      callVirtual (emitVirtual exampleClassDB classTextureCubemapArrayRD "class") name =
        some (TextureCubemapArrayRD.Advanced.Virtual name)) ∧
    (∀ name : String,
      callVirtual (emitVirtual exampleClassDB classTextureCubemapArrayRD "Instance") name =
        some (TextureCubemapArrayRD.Instance.Virtual name)) ∧
    caseLines (emitVirtual exampleClassDB classEditorSceneFormatImporter "class") =
      [("_get_extensions", "_get_extensions"), ("_import_scene", "_import_scene"),
        ("_get_import_options", "_get_import_options"),
        ("_get_option_visibility", "_get_option_visibility")] := by
  have h1 := Virtual_dispatch_table exampleClassDB classEditorSceneFormatImporter false
  have h2 := Virtual_dispatch_table exampleClassDB classTextureCubemapArrayRD false
  have hr : (directParent exampleClassDB classEditorSceneFormatImporter).IsSingleton = false ∧
      (directParent exampleClassDB classEditorSceneFormatImporter).Name = "RefCounted" := by
    decide
  have ht : (directParent exampleClassDB classTextureCubemapArrayRD).IsSingleton = false ∧
      (directParent exampleClassDB classTextureCubemapArrayRD).Name = "TextureLayeredRD" := by
    decide
  refine ⟨?_, ?_, ?_, ?_, ?_, ?_⟩
  · rw [h2.1]
    decide
  · intro name
    rw [h1.2.2.2.1 name]
    simp only [specVirtual, virtualMethods, EditorSceneFormatImporter.Advanced.Virtual,
      hr.1, hr.2]
    simp [classEditorSceneFormatImporter]
    split_ifs <;> simp_all
  · intro name
    rw [h1.2.2.2.2 name]
    simp only [specVirtual, virtualMethods, EditorSceneFormatImporter.Instance.Virtual,
      hr.1, hr.2]
    simp [classEditorSceneFormatImporter]
    split_ifs <;> simp_all
  · intro name
    rw [h2.2.2.2.1 name]
    simp only [specVirtual, virtualMethods, TextureCubemapArrayRD.Advanced.Virtual,
      ht.1, ht.2]
    simp [classTextureCubemapArrayRD]
  · intro name
    rw [h2.2.2.2.2 name]
    simp only [specVirtual, virtualMethods, TextureCubemapArrayRD.Instance.Virtual,
      ht.1, ht.2]
    simp [classTextureCubemapArrayRD]
  · rw [h1.2.2.1 "class"]
    rfl

end Generate
